import Mathlib

/-!
Shallow embedding of the sound-board firmware (src/src/main.cpp) and proofs
of the spec's testable properties.

Conventions of the embedding:
* C integer arithmetic is modelled on `ℤ`/`ℕ`; C++ `/` on `int32_t`
  (truncation toward zero) is `Int.tdiv`; `uint8_t` wraparound sums are
  `% 256`.
* The float product `sample * volume` followed by the C cast
  `(int32_t)(...)` (truncation toward zero) is modelled exactly over `ℚ`
  by `truncQ`.
* C strings (`char[64]` buffers) are modelled as their nul-free byte
  contents, `List ℕ`.
* Arduino collaborators (SD card, millis, digitalRead, esp_random) are
  passed in as explicit parameters.
-/

namespace SoundBoards

/-- Truncation of a rational toward zero, the semantics of the C cast
`(int32_t)(sample * volume)` in `applyVolumeControl`. -/
def truncQ (x : ℚ) : ℤ := if 0 ≤ x then ⌊x⌋ else ⌈x⌉

/-- First soft-limiting branch of `applyVolumeControl` (main.cpp lines
399-400): `if (scaled > 28000) scaled = 28000 + (scaled - 28000) / 4;`.
C++ `int32_t` division truncates toward zero, which is `Int.tdiv`. -/
def softLimitHi (scaled : ℤ) : ℤ :=
  if 28000 < scaled then 28000 + Int.tdiv (scaled - 28000) 4 else scaled

/-- Second soft-limiting branch of `applyVolumeControl` (main.cpp lines
401-402): `if (scaled < -28000) scaled = -28000 + (scaled + 28000) / 4;`. -/
def softLimitLo (scaled : ℤ) : ℤ :=
  if scaled < -28000 then -28000 + Int.tdiv (scaled + 28000) 4 else scaled

/-- The two soft-limiting branches applied sequentially, as in the source. -/
def softLimit (scaled : ℤ) : ℤ := softLimitLo (softLimitHi scaled)

/-- Upper hard clamp of `applyVolumeControl` (main.cpp lines 405-406). -/
def hardClampHi (scaled : ℤ) : ℤ := if 32767 < scaled then 32767 else scaled

/-- Lower hard clamp of `applyVolumeControl` (main.cpp lines 407-408). -/
def hardClampLo (scaled : ℤ) : ℤ := if scaled < -32768 then -32768 else scaled

/-- The final hard clamp of `applyVolumeControl`, both branches in source
order. -/
def hardClamp (scaled : ℤ) : ℤ := hardClampLo (hardClampHi scaled)

/-- `applyVolumeControl` (main.cpp lines 393-411): scale the sample by the
gain, soft-limit above magnitude 28000, then hard-clamp to int16 range. -/
def applyVolumeControl (sample : ℤ) (volume : ℚ) : ℤ :=
  hardClamp (softLimit (truncQ ((sample : ℚ) * volume)))

/-- Modelled from the spec (§4.1): scale the sample by the gain in a wider
integer domain; if the scaled magnitude exceeds the soft-knee threshold
T = 28000, replace it with sign * (T + (|scaled| - T) / 4); then hard-clamp
to the representable int16 range. -/
def applyVolumeControlSpec (sample : ℤ) (gain : ℚ) : ℤ :=
  max (-32768) (min 32767 (softKnee (truncQ ((sample : ℚ) * gain))))
where
  /-- The spec's soft-knee step: compress the excess above T = 28000 by a
  factor of 4 on the magnitude, keeping the sign. -/
  softKnee (scaled : ℤ) : ℤ :=
    if 28000 < |scaled| then
      (if scaled < 0 then -1 else 1) * (28000 + Int.tdiv (|scaled| - 28000) 4)
    else scaled

lemma hardClamp_mem_range (z : ℤ) :
    -32768 ≤ hardClamp z ∧ hardClamp z ≤ 32767 := by
  unfold hardClamp hardClampLo hardClampHi
  split <;> split <;> omega

lemma hardClamp_idem (z : ℤ) : hardClamp (hardClamp z) = hardClamp z := by
  unfold hardClamp hardClampLo hardClampHi
  repeat' split
  all_goals omega

lemma hardClamp_eq_max_min (z : ℤ) :
    hardClamp z = max (-32768) (min 32767 z) := by
  unfold hardClamp hardClampLo hardClampHi
  split <;> split <;> omega

lemma softLimit_eq_knee (z : ℤ) :
    softLimit z = applyVolumeControlSpec.softKnee z := by
  unfold softLimit softLimitLo softLimitHi applyVolumeControlSpec.softKnee
  rcases lt_trichotomy z (-28000) with hneg | heq | hpos
  · have habs : |z| = -z := abs_of_neg (by omega)
    have h1 : ¬ 28000 < z := by omega
    have h2 : 28000 < |z| := by omega
    have h3 : z < 0 := by omega
    simp only [if_neg h1, if_pos hneg, if_pos h2, if_pos h3]
    have hdiv : Int.tdiv (z + 28000) 4 = -Int.tdiv (-z - 28000) 4 := by
      have h : z + 28000 = -(-z - 28000) := by ring
      rw [h, Int.neg_tdiv]
    rw [hdiv, habs]
    ring
  · subst heq
    norm_num
  · rcases le_or_lt z 28000 with hle | hgt
    · have habs : |z| ≤ 28000 := abs_le.mpr ⟨by omega, hle⟩
      have h1 : ¬ 28000 < z := by omega
      have h2 : ¬ z < -28000 := by omega
      have h3 : ¬ 28000 < |z| := by omega
      simp only [if_neg h1, if_neg h2, if_neg h3]
    · have habs : |z| = z := abs_of_pos (by omega)
      have hd : 0 ≤ Int.tdiv (z - 28000) 4 :=
        Int.tdiv_nonneg (by omega) (by omega)
      have h2 : ¬ (28000 + Int.tdiv (z - 28000) 4 < -28000) := by omega
      have h3 : 28000 < |z| := by omega
      have h4 : ¬ z < 0 := by omega
      simp only [if_pos hgt, if_neg h2, if_pos h3, if_neg h4, habs]
      ring

lemma applyVolumeControlSpec_eq (s : ℤ) (g : ℚ) :
    applyVolumeControlSpec s g = applyVolumeControl s g := by
  unfold applyVolumeControlSpec applyVolumeControl
  rw [softLimit_eq_knee, hardClamp_eq_max_min]

/-! ## Frame codec and receiver (ESP-NOW) -/

/-- The `ESPNowMessage` struct (main.cpp lines 328-335). The `char
soundFile[64]` buffer is modelled by the bytes of the nul-terminated string
it holds (at most 63 bytes, nul-free); `uint8_t` / `uint32_t` fields are
naturals. -/
structure ESPNowMessage where
  senderBoardId : ℕ
  targetBoardId : ℕ
  soundFile : List ℕ
  timestamp : ℕ
  checksum : ℕ
deriving Repr, DecidableEq

/-- `calculateChecksum` (main.cpp lines 743-753): `uint8_t` wraparound sum
of senderBoardId, targetBoardId and the bytes of soundFile up to its nul
terminator. -/
def calculateChecksum (msg : ESPNowMessage) : ℕ :=
  (msg.senderBoardId + msg.targetBoardId + msg.soundFile.sum) % 256

/-- The frame built by `sendSoundCommand` (main.cpp lines 862-880) before it
is handed to `esp_now_send`: `strncpy` into the 64-byte buffer keeps at most
63 bytes of the name (then forces a nul at index 63), and the checksum is
computed over the fields just stored. -/
def sendSoundCommand (boardId targetBoard : ℕ) (soundFile : List ℕ)
    (now : ℕ) : ESPNowMessage :=
  let base : ESPNowMessage :=
    { senderBoardId := boardId
      targetBoardId := targetBoard
      soundFile := soundFile.take 63
      timestamp := now
      checksum := 0 }
  { base with checksum := calculateChecksum base }

/-- `validateMessage` (main.cpp lines 755-786). The SD card is the external
storage collaborator, passed in as the existence predicate `sdExists` over
filenames (the source uniformly prepends "/" both here and at playback;
the model keys the collaborator by the bare filename). -/
def validateMessage (sdExists : List ℕ → Bool) (msg : ESPNowMessage) : Bool :=
  if msg.senderBoardId < 1 ∨ 5 < msg.senderBoardId then false
  else if msg.targetBoardId < 1 ∨ 5 < msg.targetBoardId then false
  else if msg.checksum ≠ calculateChecksum msg then false
  else if ¬ sdExists msg.soundFile then false
  else true

/-- Round `offset` up to the next multiple of `align` (C struct layout). -/
def alignUp (offset align : ℕ) : ℕ := (offset + align - 1) / align * align

/-- `sizeof(ESPNowMessage)` on the firmware's target (ESP32-C3, riscv32
ilp32 ABI; the struct carries no packed attribute): two 1-byte ids at
offsets 0 and 1, the 64-byte `char` array at 2..65, the `uint32_t`
timestamp aligned to 4 (offset 68, after 2 padding bytes), the checksum
byte at offset 72, and tail padding to the struct's 4-byte alignment. -/
def espNowMessageSize : ℕ :=
  alignUp (alignUp (1 + 1 + 64) 4 + 4 + 1) 4

/-- What one receiver callback run did: whether `validateMessage` was ever
entered, and the filename handed to `playWAVFile`, if any. -/
structure RxOutcome where
  validationInvoked : Bool
  played : Option (List ℕ)
deriving Repr, DecidableEq

/-- `onDataReceive` (main.cpp lines 788-817) for one inbound datagram of
`len` bytes carrying `msg` (the `memcpy` of a well-delivered datagram of
the right size reproduces the sender's struct, so the payload is modelled
at the struct level with the raw length alongside). `boardId` and the SD
card are the node's identity and storage collaborator. -/
def onDataReceive (boardId : ℕ) (sdExists : List ℕ → Bool) (len : ℕ)
    (msg : ESPNowMessage) : RxOutcome :=
  if len ≠ espNowMessageSize then ⟨false, none⟩
  else if msg.targetBoardId ≠ boardId then ⟨false, none⟩
  else if validateMessage sdExists msg then ⟨true, some msg.soundFile⟩
  else ⟨true, none⟩

lemma espNowMessageSize_eq : espNowMessageSize = 76 := by decide

/-! ## Button debouncing and the per-tick combinator -/

/-- `DEBOUNCE_DELAY` (main.cpp line 307), in milliseconds. -/
def DEBOUNCE_DELAY : ℕ := 50

/-- `ButtonState` (main.cpp lines 338-345). The `pin` field is dropped:
`digitalRead(btn->pin) == LOW` becomes the `reading` argument of
`updateButton`, and `millis()` becomes the `now` argument. -/
structure ButtonState where
  currentState : Bool
  lastState : Bool
  lastDebounceTime : ℕ
  pressed : Bool
deriving Repr, DecidableEq

/-- `updateButton` (main.cpp lines 688-710), one poll-tick step of the
debounce machine: a raw change resets the timer; once the raw level has
been stable for more than `DEBOUNCE_DELAY`, the debounced `currentState`
follows it, and a transition into pressed latches the `pressed` flag. -/
def updateButton (reading : Bool) (now : ℕ) (btn : ButtonState) : ButtonState :=
  let b1 := if reading ≠ btn.lastState then
      { btn with lastDebounceTime := now }
    else btn
  let b2 :=
    if DEBOUNCE_DELAY < now - b1.lastDebounceTime then
      if reading ≠ b1.currentState then
        { b1 with currentState := reading
                  pressed := if reading then true else b1.pressed }
      else b1
    else b1
  { b2 with lastState := reading }

/-- `isButtonPressed` (main.cpp lines 720-728): consume-once read of the
latched edge flag; returns the flag and the updated state. -/
def isButtonPressed (btn : ButtonState) : Bool × ButtonState :=
  if btn.pressed then (true, { btn with pressed := false }) else (false, btn)

/-- The four button globals (main.cpp lines 348-351). -/
structure Buttons where
  red : ButtonState
  green : ButtonState
  blue : ButtonState
  yellow : ButtonState
deriving Repr, DecidableEq

/-- The four raw pin levels sampled on one poll tick (true = active LOW). -/
structure Readings where
  red : Bool
  green : Bool
  blue : Bool
  yellow : Bool
deriving Repr, DecidableEq

/-- `updateAllButtons` (main.cpp lines 712-718). -/
def updateAllButtons (r : Readings) (now : ℕ) (b : Buttons) : Buttons :=
  { red := updateButton r.red now b.red
    green := updateButton r.green now b.green
    blue := updateButton r.blue now b.blue
    yellow := updateButton r.yellow now b.yellow }

/-- `countPressedButtons` (main.cpp lines 730-740): how many of green,
blue, yellow are currently in the debounced pressed level. -/
def countPressedButtons (b : Buttons) : ℕ :=
  (if b.green.currentState then 1 else 0) +
    (if b.blue.currentState then 1 else 0) +
    (if b.yellow.currentState then 1 else 0)

/-- The one logical event a poll tick can emit: which playback / radio
call the handlers make. -/
inductive ButtonEvent where
  | noEvent
  | playRandomLocal
  | sendRemoteCommand
  | playStaticGreen
  | playStaticBlue
  | playStaticYellow
deriving Repr, DecidableEq

/-- `handleDualButtonPress` (main.cpp lines 905-923): only when exactly 2
of the 3 color buttons are pressed does it play a random sound (if the
catalog is non-empty) and clear the three latched edge flags.
`catalogNonempty` stands for `getRandomSound().length() > 0`. -/
def handleDualButtonPress (catalogNonempty : Bool) (b : Buttons) :
    ButtonEvent × Buttons :=
  if countPressedButtons b = 2 then
    ((if catalogNonempty then .playRandomLocal else .noEvent),
     { b with green := { b.green with pressed := false }
              blue := { b.blue with pressed := false }
              yellow := { b.yellow with pressed := false } })
  else (.noEvent, b)

/-- `handleRedButtonPress` (main.cpp lines 925-943): consume the red edge
flag; if it was set, send a remote command (when the catalog is
non-empty). -/
def handleRedButtonPress (catalogNonempty : Bool) (b : Buttons) :
    ButtonEvent × Buttons :=
  let r := isButtonPressed b.red
  if r.1 then
    ((if catalogNonempty then .sendRemoteCommand else .noEvent),
     { b with red := r.2 })
  else (.noEvent, { b with red := r.2 })

/-- `handleSingleButtonPress` (main.cpp lines 883-903): else-if chain over
green, blue, yellow, consuming at most one edge flag. -/
def handleSingleButtonPress (b : Buttons) : ButtonEvent × Buttons :=
  let g := isButtonPressed b.green
  if g.1 then (.playStaticGreen, { b with green := g.2 })
  else
    let bl := isButtonPressed b.blue
    if bl.1 then (.playStaticBlue, { b with blue := bl.2 })
    else
      let y := isButtonPressed b.yellow
      if y.1 then (.playStaticYellow, { b with yellow := y.2 })
      else (.noEvent, b)

/-- `handleButtons` (main.cpp lines 945-964), one poll tick: update all
debounce machines, then dispatch with dual-press priority, then red, then
singles. -/
def handleButtons (catalogNonempty : Bool) (r : Readings) (now : ℕ)
    (b : Buttons) : ButtonEvent × Buttons :=
  let b1 := updateAllButtons r now b
  if 2 ≤ countPressedButtons b1 then handleDualButtonPress catalogNonempty b1
  else if b1.red.currentState then handleRedButtonPress catalogNonempty b1
  else handleSingleButtonPress b1

/-- Feed a trace of (millis, raw reading) poll ticks to one debounce
machine. -/
def runButton (b : ButtonState) (trace : List (ℕ × Bool)) : ButtonState :=
  trace.foldl (fun s p => updateButton p.2 p.1 s) b

/-- The trace oscillates faster than the debounce window, relative to a
machine whose pending raw level is `s` with timer at `t`: whenever a tick
repeats the previous raw level, no more than `DEBOUNCE_DELAY` ms have
passed since the last raw change. -/
def fastOsc : ℕ → Bool → List (ℕ × Bool) → Bool
  | _, _, [] => true
  | t, s, (n, r) :: rest =>
      if r = s then decide (n - t ≤ DEBOUNCE_DELAY) && fastOsc t s rest
      else fastOsc n r rest

/-! ## Startup (setup) and playback (playWAVFile) -/

/-- The startup environment: the storage collaborator as `setup` consumes
it. `idFileExists i` is `SD.exists("/i.txt")`; `catalog` is the
`soundFiles` array as left by `discoverSoundFiles` (the ".wav"-suffixed
names, sorted). -/
structure SetupEnv where
  sdCardOk : Bool
  idFileExists : ℕ → Bool
  catalog : List (List ℕ)

/-- `loadBoardId` (main.cpp lines 554-572): scan marker files 1.txt..5.txt
in order, take the first hit. -/
def loadBoardId (idFileExists : ℕ → Bool) : Option ℕ :=
  if idFileExists 1 then some 1
  else if idFileExists 2 then some 2
  else if idFileExists 3 then some 3
  else if idFileExists 4 then some 4
  else if idFileExists 5 then some 5
  else none

/-- `assignSoundsByIndex` (main.cpp lines 637-654): with fewer than 3
catalog entries it returns without assigning, leaving the three globals at
their initial empty strings; otherwise the first three entries become the
green, blue, yellow sounds. -/
def assignSoundsByIndex (soundFiles : List (List ℕ)) :
    List ℕ × List ℕ × List ℕ :=
  if soundFiles.length < 3 then ([], [], [])
  else (soundFiles.getD 0 [], soundFiles.getD 1 [], soundFiles.getD 2 [])

/-- Where `setup` (main.cpp lines 1016-1081) ends up: one of the three
`while (1) delay(1000);` halt loops — each of which is reached before
`setupESPNow()` and before `loop()` ever runs, so a halted node never
plays and never touches the radio — or the ready state with the three
assigned button sounds. -/
inductive SetupResult where
  | haltNoSD
  | haltNoBoardId
  | haltNoSounds
  | ready (boardId : ℕ) (greenSound blueSound yellowSound : List ℕ)
deriving Repr, DecidableEq

/-- `setup` (main.cpp lines 1016-1081): SD init, board-id marker, sound
discovery and assignment, each failure halting in place. -/
def setup (env : SetupEnv) : SetupResult :=
  if ¬ env.sdCardOk then .haltNoSD
  else
    match loadBoardId env.idFileExists with
    | none => .haltNoBoardId
    | some id =>
        let s := assignSoundsByIndex env.catalog
        if s.1 = [] ∨ s.2.1 = [] ∨ s.2.2 = [] then .haltNoSounds
        else .ready id s.1 s.2.1 s.2.2

/-- What one `playWAVFile` call did, observable at return. -/
structure PlayOutcome where
  opened : Bool
  closed : Bool
  isPlaying : Bool
  chunksWritten : ℕ
  abortedEarly : Bool
  openFailureLogged : Bool
deriving Repr, DecidableEq

/-- The read/write loop of `playWAVFile` (main.cpp lines 988-1009) over the
per-chunk `i2s_write` results (true = ESP_OK): count of chunks written
before the first device error, and whether the loop broke early. -/
def playLoop : List Bool → ℕ × Bool
  | [] => (0, false)
  | ok :: rest =>
      if ok then ((playLoop rest).1 + 1, (playLoop rest).2)
      else (0, true)

/-- `playWAVFile` (main.cpp lines 966-1014). `openResult` is the storage
collaborator's answer to `SD.open`: `none` for open failure, otherwise the
chunk-by-chunk device write results of the streamed file. Sets
`isPlaying = true` on entry; on open failure logs and returns with
`isPlaying = false`; otherwise streams (aborting on a device write error),
then closes the file and clears `isPlaying` on the one shared exit path. -/
def playWAVFile (openResult : Option (List Bool)) : PlayOutcome :=
  match openResult with
  | none =>
      { opened := false, closed := false, isPlaying := false
        chunksWritten := 0, abortedEarly := false, openFailureLogged := true }
  | some chunkWrites =>
      { opened := true, closed := true, isPlaying := false
        chunksWritten := (playLoop chunkWrites).1
        abortedEarly := (playLoop chunkWrites).2
        openFailureLogged := false }

/-! ## Claim theorems -/

/-- C4: for every int16 input sample and every gain in [0, 1.2], the Gain
Stage (`applyVolumeControl`) returns a value in [-32768, 32767], and
re-applying the final hard clamp to the already-clamped result is a
no-op. -/
theorem C4_gain_stage_range (s : ℤ) (g : ℚ)
    (_hs1 : -32768 ≤ s) (_hs2 : s ≤ 32767) (_hg1 : 0 ≤ g)
    (_hg2 : g ≤ 6 / 5) :
    (-32768 ≤ applyVolumeControl s g ∧ applyVolumeControl s g ≤ 32767) ∧
      hardClamp (applyVolumeControl s g) = applyVolumeControl s g := by
  unfold applyVolumeControl
  exact ⟨hardClamp_mem_range _, hardClamp_idem _⟩

/-- Witness for C4 at sample 32767 and gain 6/5. -/
theorem C4_gain_stage_range_witness :
    (-32768 ≤ applyVolumeControl 32767 (6 / 5) ∧
        applyVolumeControl 32767 (6 / 5) ≤ 32767) ∧
      hardClamp (applyVolumeControl 32767 (6 / 5)) =
        applyVolumeControl 32767 (6 / 5) :=
  C4_gain_stage_range 32767 (6 / 5) (by decide) (by decide) (by norm_num)
    le_rfl

/-- C7: for every int16 sample and gain, the Gain Stage output
(`applyVolumeControl`) equals the spec's reference algorithm
(`applyVolumeControlSpec`: scale in a wider integer domain, soft-knee
compress the excess magnitude above T = 28000 by a factor of 4 keeping the
sign, then hard-clamp). The scaling step is modelled identically (exact
rational product truncated toward zero) on both sides, and the equality in
fact holds for every sample and every rational gain. -/
theorem C7_gain_stage_matches_spec_algorithm (s : ℤ) (g : ℚ) :
    applyVolumeControlSpec s g = applyVolumeControl s g :=
  applyVolumeControlSpec_eq s g

/-- C2 fails as stated: the wire record is the padded C struct, whose size
on the target is 76 bytes, not 71. A 76-byte datagram (≠ 71 bytes) passes
the length check and is fully processed (here: played), while a 71-byte
datagram is rejected outright. -/
theorem C2_counterexample :
    espNowMessageSize ≠ 71 ∧
    onDataReceive 2 (fun _ => true) 76 ⟨1, 2, [], 0, 3⟩ ≠
      (⟨false, none⟩ : RxOutcome) ∧
    onDataReceive 2 (fun _ => true) 71 ⟨1, 2, [], 0, 3⟩ =
      (⟨false, none⟩ : RxOutcome) := by decide

/-- C2 amended: the fixed wire record size (`sizeof(ESPNowMessage)`, the 71
bytes of fields plus 5 alignment padding bytes) is 76 bytes, and
`onDataReceive` rejects outright — no validation, no playback — every
datagram whose byte length is not exactly 76, for any content. -/
theorem C2_length_check (b : ℕ) (sdE : List ℕ → Bool) (len : ℕ)
    (msg : ESPNowMessage) (h : len ≠ 76) :
    espNowMessageSize = 76 ∧
      onDataReceive b sdE len msg = (⟨false, none⟩ : RxOutcome) := by
  refine ⟨espNowMessageSize_eq, ?_⟩
  have h76 : len ≠ espNowMessageSize := by
    rw [espNowMessageSize_eq]; exact h
  simp [onDataReceive, h76]

/-- Witness for C2 at a 71-byte datagram. -/
theorem C2_length_check_witness :
    espNowMessageSize = 76 ∧
      onDataReceive 1 (fun _ => false) 71 ⟨1, 1, [], 0, 2⟩ =
        (⟨false, none⟩ : RxOutcome) :=
  C2_length_check 1 (fun _ => false) 71 ⟨1, 1, [], 0, 2⟩ (by decide)

/-- C3: for sender and target ids in 1..5 and any filename shorter than 63
bytes, the frame built by `sendSoundCommand` passes `validateMessage` (on a
node whose storage has the file) and carries back the two ids and the
filename exactly. -/
theorem C3_encode_decode_roundtrip (id1 id2 : ℕ) (name : List ℕ) (now : ℕ)
    (sdExists : List ℕ → Bool)
    (h1 : 1 ≤ id1) (h2 : id1 ≤ 5) (h3 : 1 ≤ id2) (h4 : id2 ≤ 5)
    (h5 : name.length < 63) (h6 : sdExists name = true) :
    validateMessage sdExists (sendSoundCommand id1 id2 name now) = true ∧
      (sendSoundCommand id1 id2 name now).senderBoardId = id1 ∧
      (sendSoundCommand id1 id2 name now).targetBoardId = id2 ∧
      (sendSoundCommand id1 id2 name now).soundFile = name := by
  have htake : name.take 63 = name := List.take_of_length_le (by omega)
  have c1 : ¬ (id1 < 1 ∨ 5 < id1) := by omega
  have c2 : ¬ (id2 < 1 ∨ 5 < id2) := by omega
  simp [sendSoundCommand, validateMessage, calculateChecksum, htake, c1, c2,
    h6]
  omega

/-- Witness for C3 with ids 1, 2 and filename "a.wav". -/
theorem C3_encode_decode_roundtrip_witness :
    validateMessage (fun _ => true)
        (sendSoundCommand 1 2 [97, 46, 119, 97, 118] 500) = true ∧
      (sendSoundCommand 1 2 [97, 46, 119, 97, 118] 500).senderBoardId = 1 ∧
      (sendSoundCommand 1 2 [97, 46, 119, 97, 118] 500).targetBoardId = 2 ∧
      (sendSoundCommand 1 2 [97, 46, 119, 97, 118] 500).soundFile =
        [97, 46, 119, 97, 118] :=
  C3_encode_decode_roundtrip 1 2 [97, 46, 119, 97, 118] 500 (fun _ => true)
    (by decide) (by decide) (by decide) (by decide) (by decide) rfl

/-- C6: `onDataReceive` discards every inbound frame whose targetId differs
from the node's identity before invoking `validateMessage` and without
invoking the Playback Engine; and a well-formed frame (right datagram size,
sender id in range, correct checksum) whose targetId equals the node's
identity and whose named file exists is played with exactly its
filename. -/
theorem C6_receiver_filter_and_play (boardId : ℕ) (sdE : List ℕ → Bool)
    (len : ℕ) (msg : ESPNowMessage) :
    (msg.targetBoardId ≠ boardId →
      onDataReceive boardId sdE len msg = (⟨false, none⟩ : RxOutcome)) ∧
    (len = espNowMessageSize → msg.targetBoardId = boardId →
      1 ≤ msg.senderBoardId → msg.senderBoardId ≤ 5 →
      1 ≤ boardId → boardId ≤ 5 →
      msg.checksum = calculateChecksum msg →
      sdE msg.soundFile = true →
      onDataReceive boardId sdE len msg =
        (⟨true, some msg.soundFile⟩ : RxOutcome)) := by
  constructor
  · intro h
    by_cases hl : len = espNowMessageSize
    · simp [onDataReceive, hl, h]
    · simp [onDataReceive, hl]
  · intro hlen htarget hs1 hs2 hb1 hb2 hchk hex
    have cs : ¬ (msg.senderBoardId < 1 ∨ 5 < msg.senderBoardId) := by omega
    have ct : ¬ (msg.targetBoardId < 1 ∨ 5 < msg.targetBoardId) := by omega
    simp [onDataReceive, validateMessage, hlen, htarget, cs, ct, hchk, hex]
    omega

/-- Witness for C6: node 3 discards a frame targeted at node 2; node 2
plays it. -/
theorem C6_receiver_filter_and_play_witness :
    onDataReceive 3 (fun _ => true) 76 ⟨1, 2, [99], 0, 102⟩ =
      (⟨false, none⟩ : RxOutcome) ∧
    onDataReceive 2 (fun _ => true) 76 ⟨1, 2, [99], 0, 102⟩ =
      (⟨true, some [99]⟩ : RxOutcome) :=
  ⟨(C6_receiver_filter_and_play 3 (fun _ => true) 76 ⟨1, 2, [99], 0, 102⟩).1
      (by decide),
   (C6_receiver_filter_and_play 2 (fun _ => true) 76 ⟨1, 2, [99], 0, 102⟩).2
      (by decide) (by decide) (by decide) (by decide) (by decide) (by decide)
      (by decide) rfl⟩

/-- C10: the receiver filters only by targetId and never compares the
frame's senderId with its own identity, so a well-formed self-addressed
frame — senderId equal to the receiving node's own identity — passes
validation and is played. -/
theorem C10_self_addressed_frame_plays (boardId : ℕ) (sdE : List ℕ → Bool)
    (len : ℕ) (msg : ESPNowMessage)
    (hlen : len = espNowMessageSize)
    (hsender : msg.senderBoardId = boardId)
    (htarget : msg.targetBoardId = boardId)
    (hb1 : 1 ≤ boardId) (hb2 : boardId ≤ 5)
    (hchk : msg.checksum = calculateChecksum msg)
    (hex : sdE msg.soundFile = true) :
    onDataReceive boardId sdE len msg =
      (⟨true, some msg.soundFile⟩ : RxOutcome) := by
  have cs : ¬ (msg.senderBoardId < 1 ∨ 5 < msg.senderBoardId) := by omega
  have ct : ¬ (msg.targetBoardId < 1 ∨ 5 < msg.targetBoardId) := by omega
  simp [onDataReceive, validateMessage, hlen, htarget, cs, ct, hchk, hex]
  omega

/-- Witness for C10: node 2 plays a loopback frame it addressed to
itself. -/
theorem C10_self_addressed_frame_plays_witness :
    onDataReceive 2 (fun _ => true) 76 ⟨2, 2, [99], 0, 103⟩ =
      (⟨true, some [99]⟩ : RxOutcome) :=
  C10_self_addressed_frame_plays 2 (fun _ => true) 76 ⟨2, 2, [99], 0, 103⟩
    (by decide) (by decide) (by decide) (by decide) (by decide) (by decide)
    rfl

/-- C1 fails as stated: on a tick where all three of green, blue, yellow
are simultaneously stable-pressed (`countPressedButtons` = 3, so "at least
two"), the dual branch of `handleButtons` is taken but
`handleDualButtonPress` requires exactly 2 pressed, so no event at all is
emitted (in particular not PlayRandomLocal) and the latched edge flags are
not cleared. -/
theorem C1_counterexample :
    countPressedButtons (updateAllButtons ⟨false, true, true, true⟩ 1000
        ⟨⟨false, false, 0, false⟩, ⟨true, true, 0, true⟩,
          ⟨true, true, 0, true⟩, ⟨true, true, 0, true⟩⟩) = 3 ∧
    (handleButtons true ⟨false, true, true, true⟩ 1000
        ⟨⟨false, false, 0, false⟩, ⟨true, true, 0, true⟩,
          ⟨true, true, 0, true⟩, ⟨true, true, 0, true⟩⟩).1 =
      ButtonEvent.noEvent ∧
    (handleButtons true ⟨false, true, true, true⟩ 1000
        ⟨⟨false, false, 0, false⟩, ⟨true, true, 0, true⟩,
          ⟨true, true, 0, true⟩, ⟨true, true, 0, true⟩⟩).2.green.pressed =
      true := by decide

/-- C1 amended: on every poll tick in which exactly two of green, blue,
yellow end up stable-pressed (the dual branch with all three pressed emits
nothing and clears nothing), `handleButtons` with a non-empty catalog emits
PlayRandomLocal — hence no PlayStatic event for any of those buttons — and
clears the latched single-press edge flags of all three. -/
theorem C1_dual_press_amended (r : Readings) (now : ℕ) (b : Buttons)
    (h : countPressedButtons (updateAllButtons r now b) = 2) :
    (handleButtons true r now b).1 = ButtonEvent.playRandomLocal ∧
    (handleButtons true r now b).1 ≠ ButtonEvent.playStaticGreen ∧
    (handleButtons true r now b).1 ≠ ButtonEvent.playStaticBlue ∧
    (handleButtons true r now b).1 ≠ ButtonEvent.playStaticYellow ∧
    (handleButtons true r now b).2.green.pressed = false ∧
    (handleButtons true r now b).2.blue.pressed = false ∧
    (handleButtons true r now b).2.yellow.pressed = false := by
  unfold handleButtons handleDualButtonPress
  simp [h]

/-- Witness for C1: green and blue stable-pressed, yellow and red idle. -/
theorem C1_dual_press_amended_witness :
    (handleButtons true ⟨false, true, true, false⟩ 1000
        ⟨⟨false, false, 0, false⟩, ⟨true, true, 0, true⟩,
          ⟨true, true, 0, true⟩, ⟨false, false, 0, false⟩⟩).1 =
      ButtonEvent.playRandomLocal ∧
    (handleButtons true ⟨false, true, true, false⟩ 1000
        ⟨⟨false, false, 0, false⟩, ⟨true, true, 0, true⟩,
          ⟨true, true, 0, true⟩, ⟨false, false, 0, false⟩⟩).1 ≠
      ButtonEvent.playStaticGreen ∧
    (handleButtons true ⟨false, true, true, false⟩ 1000
        ⟨⟨false, false, 0, false⟩, ⟨true, true, 0, true⟩,
          ⟨true, true, 0, true⟩, ⟨false, false, 0, false⟩⟩).1 ≠
      ButtonEvent.playStaticBlue ∧
    (handleButtons true ⟨false, true, true, false⟩ 1000
        ⟨⟨false, false, 0, false⟩, ⟨true, true, 0, true⟩,
          ⟨true, true, 0, true⟩, ⟨false, false, 0, false⟩⟩).1 ≠
      ButtonEvent.playStaticYellow ∧
    (handleButtons true ⟨false, true, true, false⟩ 1000
        ⟨⟨false, false, 0, false⟩, ⟨true, true, 0, true⟩,
          ⟨true, true, 0, true⟩,
          ⟨false, false, 0, false⟩⟩).2.green.pressed = false ∧
    (handleButtons true ⟨false, true, true, false⟩ 1000
        ⟨⟨false, false, 0, false⟩, ⟨true, true, 0, true⟩,
          ⟨true, true, 0, true⟩,
          ⟨false, false, 0, false⟩⟩).2.blue.pressed = false ∧
    (handleButtons true ⟨false, true, true, false⟩ 1000
        ⟨⟨false, false, 0, false⟩, ⟨true, true, 0, true⟩,
          ⟨true, true, 0, true⟩,
          ⟨false, false, 0, false⟩⟩).2.yellow.pressed = false :=
  C1_dual_press_amended ⟨false, true, true, false⟩ 1000
    ⟨⟨false, false, 0, false⟩, ⟨true, true, 0, true⟩,
      ⟨true, true, 0, true⟩, ⟨false, false, 0, false⟩⟩ (by decide)

lemma updateButton_same_within (b : ButtonState) (r : Bool) (n : ℕ)
    (hls : r = b.lastState) (h : n - b.lastDebounceTime ≤ DEBOUNCE_DELAY) :
    updateButton r n b = { b with lastState := r } := by
  have h2 : ¬ DEBOUNCE_DELAY < n - b.lastDebounceTime := by omega
  simp [updateButton, hls, h2]

lemma updateButton_change (b : ButtonState) (r : Bool) (n : ℕ)
    (hls : r ≠ b.lastState) :
    updateButton r n b = { b with lastDebounceTime := n, lastState := r } := by
  simp [updateButton, hls, DEBOUNCE_DELAY]

lemma updateButton_same_level (b : ButtonState) (r : Bool) (n : ℕ)
    (hls : r = b.lastState) (hcs : r = b.currentState) :
    updateButton r n b = { b with lastState := r } := by
  unfold updateButton
  simp [hls, ← hcs]

lemma updateButton_settle (b : ButtonState) (r : Bool) (n : ℕ)
    (hls : r = b.lastState) (hcs : r ≠ b.currentState)
    (h : DEBOUNCE_DELAY < n - b.lastDebounceTime) :
    updateButton r n b =
      { b with currentState := r
               pressed := if r then true else b.pressed
               lastState := r } := by
  have hcs' : ¬ (b.lastState = b.currentState) := hls ▸ hcs
  simp [updateButton, hls, h, hcs']

lemma runButton_nil (b : ButtonState) : runButton b [] = b := rfl

lemma runButton_cons (b : ButtonState) (n : ℕ) (r : Bool)
    (rest : List (ℕ × Bool)) :
    runButton b ((n, r) :: rest) = runButton (updateButton r n b) rest := rfl

/-- An oscillation faster than the debounce window freezes the debounced
level and the edge flag. -/
lemma runButton_fastOsc (tr : List (ℕ × Bool)) :
    ∀ b : ButtonState,
      fastOsc b.lastDebounceTime b.lastState tr = true →
      (runButton b tr).currentState = b.currentState ∧
        (runButton b tr).pressed = b.pressed := by
  induction tr with
  | nil => exact fun b _ => ⟨rfl, rfl⟩
  | cons p rest ih =>
      intro b h
      obtain ⟨n, r⟩ := p
      rw [runButton_cons]
      by_cases hr : r = b.lastState
      · rw [fastOsc, if_pos hr, Bool.and_eq_true, decide_eq_true_eq] at h
        rw [updateButton_same_within b r n hr h.1]
        have h2 : fastOsc ({ b with lastState := r } : ButtonState).lastDebounceTime
            ({ b with lastState := r } : ButtonState).lastState rest = true := by
          simpa [hr] using h.2
        simpa using ih { b with lastState := r } h2
      · rw [fastOsc, if_neg hr] at h
        rw [updateButton_change b r n hr]
        have h2 : fastOsc
            ({ b with lastDebounceTime := n, lastState := r } : ButtonState).lastDebounceTime
            ({ b with lastDebounceTime := n, lastState := r } : ButtonState).lastState
            rest = true := by simpa using h
        simpa using ih { b with lastDebounceTime := n, lastState := r } h2

/-- Holding the pressed level (raw and debounced already true) never
changes the level and never re-latches the consumed edge flag. -/
lemma runButton_held_true (tr : List (ℕ × Bool)) :
    ∀ b : ButtonState, (∀ p ∈ tr, p.2 = true) →
      b.lastState = true → b.currentState = true →
      (runButton b tr).currentState = true ∧
        (runButton b tr).pressed = b.pressed := by
  induction tr with
  | nil => exact fun b _ h1 h2 => ⟨h2, rfl⟩
  | cons p rest ih =>
      intro b hall hls hcs
      obtain ⟨n, r⟩ := p
      have hr : r = true := hall (n, r) (List.mem_cons_self _ _)
      subst hr
      rw [runButton_cons,
        updateButton_same_level b true n hls.symm hcs.symm]
      exact ih { b with lastState := true }
        (fun q hq => hall q (List.mem_cons_of_mem _ hq)) rfl hcs

/-- A clean rising transition still inside the debounce window: level and
edge flag unchanged. -/
lemma runButton_rise_within (b : ButtonState) (n k : ℕ)
    (hls : b.lastState = false) (hcs : b.currentState = false)
    (hk : k - n ≤ DEBOUNCE_DELAY) :
    (runButton b [(n, true), (k, true)]).currentState = false ∧
      (runButton b [(n, true), (k, true)]).pressed = b.pressed := by
  have s1 : updateButton true n b =
      { b with lastDebounceTime := n, lastState := true } :=
    updateButton_change b true n (by simp [hls])
  rw [runButton_cons, s1, runButton_cons,
    updateButton_same_within { b with lastDebounceTime := n, lastState := true }
      true k rfl hk, runButton_nil]
  simp [hcs]

/-- A clean rising transition held past the debounce window: the debounced
level goes pressed and the edge flag latches. -/
lemma runButton_rise_latch (b : ButtonState) (n m : ℕ)
    (hls : b.lastState = false) (hcs : b.currentState = false)
    (hm : DEBOUNCE_DELAY < m - n) :
    (runButton b [(n, true), (m, true)]).currentState = true ∧
      (runButton b [(n, true), (m, true)]).pressed = true := by
  have s1 : updateButton true n b =
      { b with lastDebounceTime := n, lastState := true } :=
    updateButton_change b true n (by simp [hls])
  rw [runButton_cons, s1, runButton_cons,
    updateButton_settle { b with lastDebounceTime := n, lastState := true }
      true m rfl (by simp [hcs]) hm, runButton_nil]
  simp

/-- A clean falling transition held past the debounce window: the debounced
level goes released and nothing latches. -/
lemma runButton_release_settle (b : ButtonState) (n m : ℕ)
    (hls : b.lastState = true) (hcs : b.currentState = true)
    (hm : DEBOUNCE_DELAY < m - n) :
    (runButton b [(n, false), (m, false)]).currentState = false ∧
      (runButton b [(n, false), (m, false)]).pressed = b.pressed := by
  have s1 : updateButton false n b =
      { b with lastDebounceTime := n, lastState := false } :=
    updateButton_change b false n (by simp [hls])
  rw [runButton_cons, s1, runButton_cons,
    updateButton_settle { b with lastDebounceTime := n, lastState := false }
      false m rfl (by simp [hcs]) hm, runButton_nil]
  simp

/-- C5: the per-button debounce machine (`updateButton` stepped per poll
tick): (1) a raw signal that oscillates faster than the 50 ms debounce
window (`fastOsc`) never changes the debounced level and never latches the
pressed edge flag; (2) a clean rising transition latches nothing while
still inside the window, and latches the pressed edge exactly when held
past it; (3) holding the pressed level after the edge flag has been
consumed never re-latches it, so each rising transition latches exactly
once; (4) a transition into the released level latches nothing. -/
theorem C5_debounce_machine :
    (∀ (b : ButtonState) (tr : List (ℕ × Bool)),
        fastOsc b.lastDebounceTime b.lastState tr = true →
        (runButton b tr).currentState = b.currentState ∧
          (runButton b tr).pressed = b.pressed) ∧
    (∀ (b : ButtonState) (n k m : ℕ),
        b.lastState = false → b.currentState = false →
        k - n ≤ DEBOUNCE_DELAY → DEBOUNCE_DELAY < m - n →
        ((runButton b [(n, true), (k, true)]).currentState = false ∧
          (runButton b [(n, true), (k, true)]).pressed = b.pressed) ∧
        ((runButton b [(n, true), (m, true)]).currentState = true ∧
          (runButton b [(n, true), (m, true)]).pressed = true)) ∧
    (∀ (b : ButtonState) (tr : List (ℕ × Bool)),
        (∀ p ∈ tr, p.2 = true) → b.lastState = true →
        b.currentState = true →
        (runButton b tr).currentState = true ∧
          (runButton b tr).pressed = b.pressed) ∧
    (∀ (b : ButtonState) (n m : ℕ),
        b.lastState = true → b.currentState = true →
        DEBOUNCE_DELAY < m - n →
        (runButton b [(n, false), (m, false)]).currentState = false ∧
          (runButton b [(n, false), (m, false)]).pressed = b.pressed) :=
  ⟨fun b tr h => runButton_fastOsc tr b h,
   fun b n k m hls hcs hk hm =>
     ⟨runButton_rise_within b n k hls hcs hk,
      runButton_rise_latch b n m hls hcs hm⟩,
   fun b tr hall hls hcs => runButton_held_true tr b hall hls hcs,
   fun b n m hls hcs hm => runButton_release_settle b n m hls hcs hm⟩

/-- Witness for C5: an oscillating trace latches nothing; a clean press
within / past the window; a held consumed flag; a clean release. -/
theorem C5_debounce_machine_witness :
    ((runButton ⟨false, false, 0, false⟩
        [(10, true), (20, false), (30, true)]).currentState = false ∧
      (runButton ⟨false, false, 0, false⟩
        [(10, true), (20, false), (30, true)]).pressed = false) ∧
    (((runButton ⟨false, false, 0, false⟩
          [(100, true), (140, true)]).currentState = false ∧
        (runButton ⟨false, false, 0, false⟩
          [(100, true), (140, true)]).pressed = false) ∧
      ((runButton ⟨false, false, 0, false⟩
          [(100, true), (160, true)]).currentState = true ∧
        (runButton ⟨false, false, 0, false⟩
          [(100, true), (160, true)]).pressed = true)) ∧
    ((runButton ⟨true, true, 0, false⟩
        [(200, true), (300, true)]).currentState = true ∧
      (runButton ⟨true, true, 0, false⟩
        [(200, true), (300, true)]).pressed = false) ∧
    ((runButton ⟨true, true, 0, false⟩
        [(400, false), (460, false)]).currentState = false ∧
      (runButton ⟨true, true, 0, false⟩
        [(400, false), (460, false)]).pressed = false) :=
  ⟨C5_debounce_machine.1 ⟨false, false, 0, false⟩
      [(10, true), (20, false), (30, true)] (by decide),
   C5_debounce_machine.2.1 ⟨false, false, 0, false⟩ 100 140 160 rfl rfl
      (by decide) (by decide),
   C5_debounce_machine.2.2.1 ⟨true, true, 0, false⟩
      [(200, true), (300, true)] (by decide) rfl rfl,
   C5_debounce_machine.2.2.2 ⟨true, true, 0, false⟩ 400 460 rfl rfl
      (by decide)⟩

lemma getD_mem_of_lt {α : Type} (l : List α) (d : α) :
    ∀ i : ℕ, i < l.length → l.getD i d ∈ l := by
  induction l with
  | nil => intro i h; simp at h
  | cons a t ih =>
      intro i h
      cases i with
      | zero => simp [List.getD]
      | succ j =>
          have hj : j < t.length := by simpa using h
          simpa [List.getD] using List.mem_cons_of_mem a (ih j hj)

/-- C8: if fewer than three catalog entries are discovered at startup,
`setup` ends in a halt loop (reached before ESP-NOW init and before the
poll loop, so such a node never plays and never touches the radio) and
never in the ready state; with three or more entries (on a node whose SD
card and identity marker are fine — catalog entries all carry the ".wav"
suffix, hence are non-empty), startup proceeds to ready with the three
fixed-role button sounds assigned to the first three entries. -/
theorem C8_startup_catalog_gate :
    (∀ (env : SetupEnv) (id : ℕ) (g bl y : List ℕ),
        env.catalog.length < 3 →
        setup env ≠ SetupResult.ready id g bl y) ∧
    (∀ (env : SetupEnv) (id : ℕ),
        env.sdCardOk = true →
        loadBoardId env.idFileExists = some id →
        3 ≤ env.catalog.length →
        (∀ f ∈ env.catalog, f ≠ []) →
        setup env = SetupResult.ready id (env.catalog.getD 0 [])
          (env.catalog.getD 1 []) (env.catalog.getD 2 [])) := by
  constructor
  · intro env id g bl y hlen
    unfold setup
    by_cases hsd : env.sdCardOk
    · cases hid : loadBoardId env.idFileExists with
      | none => simp [hsd, hid]
      | some j =>
          have ha : assignSoundsByIndex env.catalog = ([], [], []) := by
            simp [assignSoundsByIndex, hlen]
          simp [hsd, hid, ha]
    · simp [hsd]
  · intro env id hsd hid hlen hne
    have h0 : env.catalog.getD 0 [] ≠ [] :=
      hne _ (getD_mem_of_lt env.catalog [] 0 (by omega))
    have h1 : env.catalog.getD 1 [] ≠ [] :=
      hne _ (getD_mem_of_lt env.catalog [] 1 (by omega))
    have h2 : env.catalog.getD 2 [] ≠ [] :=
      hne _ (getD_mem_of_lt env.catalog [] 2 (by omega))
    have ha : assignSoundsByIndex env.catalog =
        (env.catalog.getD 0 [], env.catalog.getD 1 [],
          env.catalog.getD 2 []) := by
      simp [assignSoundsByIndex, Nat.not_lt.mpr hlen]
    simp [setup, hsd, hid, ha]
    simp at h0 h1 h2
    exact ⟨h0, h1, h2⟩

/-- Witness for C8: a node with a 2-entry catalog halts; a node with a
3-entry catalog and id marker 2 becomes ready with the three sounds. -/
theorem C8_startup_catalog_gate_witness :
    setup ⟨true, fun i => i == 2, [[97], [98]]⟩ ≠
      SetupResult.ready 2 [97] [98] [99] ∧
    setup ⟨true, fun i => i == 2, [[97], [98], [99]]⟩ =
      SetupResult.ready 2 [97] [98] [99] :=
  ⟨C8_startup_catalog_gate.1 ⟨true, fun i => i == 2, [[97], [98]]⟩
      2 [97] [98] [99] (by decide),
   C8_startup_catalog_gate.2 ⟨true, fun i => i == 2, [[97], [98], [99]]⟩
      2 rfl (by decide) (by decide) (by decide)⟩

/-- C9: `playWAVFile` on every exit path — successful completion, open
failure, early abort on a device write error — leaves the busy flag
`isPlaying` false at return, has closed the resource handle exactly when
one was opened, and logs an open failure instead of propagating it. -/
theorem C9_playback_release_on_all_paths (openResult : Option (List Bool)) :
    (playWAVFile openResult).isPlaying = false ∧
      (playWAVFile openResult).closed = (playWAVFile openResult).opened ∧
      (playWAVFile openResult).openFailureLogged = openResult.isNone := by
  cases openResult <;> exact ⟨rfl, rfl, rfl⟩

end SoundBoards
